import Mathlib

/-!
Verification development for the avatar teacher-assistant frontend.

The definitions below are shallow embeddings of the TypeScript sources:

* `Orchestrator` embeds `AvatarAnimationService` (avatar-animation.service,
  the revision with the pending-state queue: `setAvatarState`, the
  `ready$` flush) — `src/unnamed/part_006`, lines 52-83.
* `BodyLoader` embeds `BodyAnimationLoaderService.playRandomAnimation`
  (backend.service.ts, lines 321-386).
* `FaceAnim` embeds `FaceAnimationService` (face-animation.service.ts).
* `CSV` embeds `BackendService.parseCSV` (backend.service.ts, lines 92-111)
  together with models of the JavaScript string/number builtins it uses.
* `AudioSvc` embeds `AudioPlaybackService` (audio-playback.service.ts).
* `Ambient` embeds `AmbientAudioService.tryPlayAmbient`
  (src/unnamed/part_002, lines 141-240, the revision with the stuck-flag
  safety reset).
* `Chat` embeds `ChatInterfaceComponent` (chat-interface.ts): the
  playback-token discipline of `sendMessage` / `playMessageAudio` /
  `replayMessage` / `stopAllPlayback`.

Event-driven asynchronous code is embedded as explicit state-passing:
every `await` boundary of the source becomes a separate Lean function
(the continuation), taking the global state current when the continuation
is scheduled.  JavaScript numbers are modelled as exact rationals;
rational constants and arithmetic are expressed through `mkRat` and
numerator/denominator operations so that every definition evaluates by
kernel reduction.
-/

/-- The avatar body state, `type AvatarState = 'idle' | 'thinking' | 'talking'`. -/
inductive AvatarState where
  | idle
  | thinking
  | talking
deriving DecidableEq, Repr

namespace JSNum

/-- Exact-rational model of JavaScript number subtraction, written through
`mkRat` so that it evaluates by kernel reduction. -/
def ratSub (a b : ℚ) : ℚ :=
  mkRat (a.num * (b.den : Int) - b.num * (a.den : Int)) (a.den * b.den)

/-- Exact-rational model of `Math.abs`. -/
def ratAbs (a : ℚ) : ℚ :=
  mkRat (Int.ofNat a.num.natAbs) a.den

end JSNum

namespace Orchestrator

/-- State of `AvatarAnimationService` (part_006) plus the observation logs a
shallow embedding needs: `published` records every value emitted on
`avatarStateSubject` after construction, `bodyRequests` records every
`playRandomAnimation` call delegated to the body loader.  `avatarState` is
`avatarStateSubject.value`, `pendingState`/`hasReadySub` are the fields of
the same names (`hasReadySub` is `readySub !== null`), and `bodyReady` is
what `bodyAnimationLoader.isReady()` returns. -/
structure OrchState where
  avatarState : AvatarState
  published : List AvatarState
  pendingState : Option AvatarState
  hasReadySub : Bool
  bodyReady : Bool
  bodyRequests : List AvatarState
deriving DecidableEq, Repr

/-- Embedding of `AvatarAnimationService.setAvatarState` (part_006, lines
52-83): return unchanged when the argument equals the current state;
otherwise publish the new state, then either delegate to
`playRandomAnimation` (body loader ready) or queue it as the single
pending state and (re)subscribe to the readiness signal. -/
def setAvatarState (s : OrchState) (st : AvatarState) : OrchState :=
  if s.avatarState = st then s
  else
    let s1 : OrchState :=
      { s with avatarState := st, published := s.published ++ [st] }
    if s1.bodyReady then
      { s1 with bodyRequests := s1.bodyRequests ++ [st] }
    else
      { s1 with pendingState := some st, hasReadySub := true }

/-- Embedding of the readiness continuation of part_006 (lines 72-81): when
`ready$` turns true, the subscription callback plays the pending state (if
any), clears it, and unsubscribes. -/
def onReady (s : OrchState) : OrchState :=
  if s.hasReadySub then
    match s.pendingState with
    | some p =>
        { s with bodyReady := true,
                 bodyRequests := s.bodyRequests ++ [p],
                 pendingState := none,
                 hasReadySub := false }
    | none => { s with bodyReady := true, hasReadySub := false }
  else
    { s with bodyReady := true }

end Orchestrator

namespace BodyLoader

/-- A loaded body clip as `BodyAnimationLoaderService` stores it: a name and
the category tag it was sorted into (`interface AnimationClip`,
backend.service.ts lines 123-128; the THREE.js clip payload is opaque to
the selection logic and is omitted). -/
structure AnimationClip where
  name : String
  state : AvatarState
deriving DecidableEq, Repr

/-- State of `BodyAnimationLoaderService` as far as `playRandomAnimation`
reads it: the mixer presence, the `isLoaded` flag reported by `isReady()`
(backend.service.ts lines 450-453), and the three per-category clip lists. -/
structure LoaderState where
  hasMixer : Bool
  isLoaded : Bool
  idleAnimations : List AnimationClip
  thinkingAnimations : List AnimationClip
  talkingAnimations : List AnimationClip
deriving DecidableEq, Repr

/-- The category clip set `playRandomAnimation` selects from
(backend.service.ts lines 332-348): `thinking` and `talking` fall back to
the idle set when their own set is empty. -/
def availableFor (l : LoaderState) (state : AvatarState) :
    List AnimationClip :=
  match state with
  | AvatarState.idle => l.idleAnimations
  | AvatarState.thinking =>
      if l.thinkingAnimations.length > 0 then l.thinkingAnimations
      else l.idleAnimations
  | AvatarState.talking =>
      if l.talkingAnimations.length > 0 then l.talkingAnimations
      else l.idleAnimations

/-- Embedding of `BodyAnimationLoaderService.playRandomAnimation`
(backend.service.ts lines 321-386): abort without a clip when the mixer is
missing, the library is not loaded, or the selected set is empty; otherwise
return the clip at the uniformly drawn index.  The JavaScript draw
`Math.floor(Math.random() * n)` is modelled by reducing an arbitrary
natural draw `r` modulo the set size, which is a bijection from residues to
indices. -/
def playRandomAnimation (l : LoaderState) (state : AvatarState) (r : Nat) :
    Option AnimationClip :=
  if ¬ l.hasMixer then none
  else if ¬ l.isLoaded then none
  else
    let avail := availableFor l state
    if h : avail.length = 0 then none
    else some (avail.get ⟨r % avail.length, Nat.mod_lt r (Nat.pos_of_ne_zero h)⟩)

end BodyLoader

namespace CSV

/-- Whitespace recognised by the JavaScript `trim` model. -/
def isWsChar (c : Char) : Bool :=
  c = ' ' || c = '\n' || c = '\t' || c = '\r'

/-- Model of the JavaScript `String.prototype.split` with a one-character
separator, on character lists: `""` splits to `[""]`, separators at the
ends produce empty fields. -/
def splitChar (sep : Char) : List Char → List (List Char)
  | [] => [[]]
  | c :: rest =>
      let r := splitChar sep rest
      if c = sep then [] :: r
      else
        match r with
        | [] => [[c]]
        | h :: t => (c :: h) :: t

/-- Model of the JavaScript `String.prototype.trim` on character lists. -/
def trimChars (l : List Char) : List Char :=
  ((l.dropWhile isWsChar).reverse.dropWhile isWsChar).reverse

/-- Numeric value of a decimal digit character. -/
def digitVal (c : Char) : Nat := c.toNat - 48

/-- Value of a list of decimal digit characters. -/
def digitsToNat (l : List Char) : Nat :=
  l.foldl (fun acc c => acc * 10 + digitVal c) 0

/-- Model of the JavaScript `parseFloat` builtin restricted to plain decimal
notation (optional sign, integer digits, optional fraction digits; the
exponent form does not occur in this repository's data): `none` models NaN.
Values are exact rationals, built with `mkRat` so the parser evaluates by
kernel reduction. -/
def jsParseFloat (l : List Char) : Option ℚ :=
  let l1 := l.dropWhile isWsChar
  let sign : Int := match l1 with
    | '-' :: _ => -1
    | _ => 1
  let l2 : List Char := match l1 with
    | '-' :: rest => rest
    | '+' :: rest => rest
    | _ => l1
  let intDigits := l2.takeWhile Char.isDigit
  let rest := l2.dropWhile Char.isDigit
  let fracDigits : List Char :=
    match rest with
    | '.' :: r => r.takeWhile Char.isDigit
    | _ => []
  if intDigits.isEmpty && fracDigits.isEmpty then none
  else
    let k := fracDigits.length
    some (mkRat
      (sign * Int.ofNat (digitsToNat intDigits * 10 ^ k + digitsToNat fracDigits))
      (10 ^ k))

/-- The expression `parseFloat(values[index]) || 0` of `parseCSV`: a missing
value or a parse failure (and the falsy result 0 itself) yields 0. -/
def jsParseFloatOrZero (l : List Char) : ℚ :=
  (jsParseFloat l).getD 0

/-- A parsed CSV row: the JavaScript object `row` of `parseCSV`, with keys
in insertion order. -/
abbrev Row := List (String × ℚ)

/-- Model of `row[key] = value` on a JavaScript object: overwrite the value
in place if the key exists, otherwise append the key. -/
def rowInsert (row : Row) (k : String) (v : ℚ) : Row :=
  if row.any (fun p => p.1 = k) then
    row.map (fun p => if p.1 = k then (k, v) else p)
  else
    row ++ [(k, v)]

/-- The `headers.forEach((header, index) => ...)` body of `parseCSV`
(backend.service.ts lines 101-105): skip headers that are empty after
trimming, otherwise store the parsed float (defaulting to 0) under the
trimmed header. -/
def buildRow (headers : List (List Char)) (values : List (List Char)) : Row :=
  (headers.enum).foldl
    (fun row p =>
      let ht := trimChars p.2
      if ht.isEmpty then row
      else rowInsert row (String.mk ht) (jsParseFloatOrZero (values.getD p.1 [])))
    []

/-- Embedding of `BackendService.parseCSV` (backend.service.ts lines
92-111): trim the blob, split into lines, read headers from the first
line, and build one row object per remaining line. -/
def parseCSV (csvData : String) : List Row :=
  let lines := splitChar '\n' (trimChars csvData.toList)
  let headers := splitChar ',' (lines.headD [])
  (lines.drop 1).map (fun line => buildRow headers (splitChar ',' line))

end CSV

namespace FaceAnim

/-- A morph-capable render target as the face services see it: the
`morphTargetDictionary` name-to-index lookup and the mutable
`morphTargetInfluences` intensity array.  Either field may be absent on a
mesh (the sources guard on both). -/
structure Mesh where
  morphTargetDictionary : Option (List (String × Nat))
  morphTargetInfluences : Option (List ℚ)
deriving DecidableEq, Repr

/-- State of `FaceAnimationService` (face-animation.service.ts): the bound
meshes, the pending animation-frame callback id, the active flag, and the
loaded lip-sync frame sequence (each frame a parsed CSV row). -/
structure FaceState where
  morphTargetMeshes : List Mesh
  animationFrameId : Option Nat
  isAnimating : Bool
  lipSyncData : List CSV.Row
deriving DecidableEq, Repr

/-- Embedding of `FaceAnimationService.resetFace` (lines 115-121): every
mesh that has an influences array gets every entry overwritten with 0
(`morphTargetInfluences.fill(0)`); meshes without one are untouched. -/
def resetFace (meshes : List Mesh) : List Mesh :=
  meshes.map fun mesh =>
    match mesh.morphTargetInfluences with
    | some arr =>
        { mesh with morphTargetInfluences := some (arr.map fun _ => 0) }
    | none => mesh

/-- Embedding of `FaceAnimationService.stopLipSync` (lines 41-49): cancel
the pending animation frame, clear the active flag, and reset the face —
all unconditionally, in the body of the call. -/
def stopLipSync (s : FaceState) : FaceState :=
  { s with animationFrameId := none,
           isAnimating := false,
           morphTargetMeshes := resetFace s.morphTargetMeshes }

/-- The `csvKey.startsWith('blendShapes.')` test of `applyCSVBlendshapes`. -/
def startsWithBlendShapes (k : String) : Bool :=
  k.toList.take 12 = "blendShapes.".toList

/-- The `csvKey.replace('blendShapes.', '')` step: for keys that passed the
`startsWith` guard, removing the first occurrence removes the 12-character
leading marker. -/
def stripBlendShapes (k : String) : String :=
  String.mk (k.toList.drop 12)

/-- The `morphKey.charAt(0).toLowerCase() + morphKey.slice(1)` step. -/
def lowerFirst (s : String) : String :=
  match s.toList with
  | [] => s
  | c :: rest => String.mk (c.toLower :: rest)

/-- The assignment `mesh.morphTargetInfluences[i] = v` (dictionary indices
are in range for the arrays three.js pairs them with; out-of-range writes
do not occur). -/
def setInfluence (m : Mesh) (i : Nat) (v : ℚ) : Mesh :=
  { m with morphTargetInfluences := m.morphTargetInfluences.map (fun arr => arr.set i v) }

/-- The per-mesh body of `FaceAnimationService.applyCSVBlendshapes`
(face-animation.service.ts lines 89-109): skip meshes without a
dictionary; for each frame key carrying the `blendShapes.` marker, write
its value at the index found under the lower-cased channel name, falling
back to the original-case name. -/
def applyFrameMesh (frame : CSV.Row) (mesh : Mesh) : Mesh :=
  match mesh.morphTargetDictionary with
  | none => mesh
  | some dict =>
      frame.foldl
        (fun m kv =>
          if ¬ startsWithBlendShapes kv.1 then m
          else
            let morphKey := stripBlendShapes kv.1
            match dict.lookup (lowerFirst morphKey) with
            | some i => setInfluence m i kv.2
            | none =>
                match dict.lookup morphKey with
                | some j => setInfluence m j kv.2
                | none => m)
        mesh

/-- Embedding of `FaceAnimationService.applyCSVBlendshapes` over the bound
mesh list (the early return on an empty list coincides with mapping over
it). -/
def applyCSVBlendshapes (frame : CSV.Row) (meshes : List Mesh) : List Mesh :=
  meshes.map (applyFrameMesh frame)

/-- The frame search of `FaceAnimationService.animateLipSync` (lines
72-74): the first frame whose `timeCode` is within 0.033 of the current
audio position; a frame without a `timeCode` field never matches (NaN
comparisons are false). -/
def findFrame (data : List CSV.Row) (currentTime : ℚ) : Option CSV.Row :=
  data.find? fun f =>
    match f.lookup "timeCode" with
    | some tc => JSNum.ratAbs (JSNum.ratSub tc currentTime) < mkRat 33 1000
    | none => false

/-- One tick of the `animateLipSync` sampling loop (lines 62-81): bail out
on empty data, otherwise apply the frame found near the current audio
position, holding the previous intensities when none is found. -/
def animateLipSyncStep (s : FaceState) (currentTime : ℚ) : FaceState :=
  if s.lipSyncData.isEmpty then s
  else
    match findFrame s.lipSyncData currentTime with
    | some frame =>
        { s with morphTargetMeshes := applyCSVBlendshapes frame s.morphTargetMeshes }
    | none => s

end FaceAnim

namespace AudioSvc

/-- How a playback promise was settled: resolved by the `ended` listener,
rejected by the `error` listener, or rejected through `play().catch`
(line 73) when a pause interrupts a `play()` whose promise is still
pending — the media element then rejects that pending promise with an
AbortError, which the catch forwards to the outer promise. -/
inductive SettleKind where
  | resolvedEnd
  | rejectedErr
  | rejectedAbort
deriving DecidableEq, Repr

/-- One promise created by `AudioPlaybackService.playAudio`: its settlement
status (`none` while pending), whether its audio element is still the
service's live element (a superseded element is paused and dropped, after
which it delivers no further events), and whether its element's `play()`
promise has already resolved, i.e. playback actually started. -/
structure Session where
  settled : Option SettleKind
  live : Bool
  playStarted : Bool
deriving DecidableEq, Repr

/-- State of `AudioPlaybackService`: all promises ever created (newest
first), whether `this.audio` is non-null, and the `isPlaying` flag of the
published `playbackState`. -/
structure SvcState where
  sessions : List Session
  audioAttached : Bool
  statePlaying : Bool
deriving DecidableEq, Repr

/-- Settle a promise: JavaScript promises ignore `resolve`/`reject` once
settled. -/
def settleWith (k : SettleKind) : Option SettleKind → Option SettleKind
  | none => some k
  | some k0 => some k0

/-- The effect of `audio.pause()` plus dropping the element on one session:
the session is no longer live, and — the `play().catch(reject)` path of
line 73 — if its `play()` promise had not yet resolved (playback never
started), pausing rejects that pending promise with an AbortError, which
settles the playback promise as a rejection; a session whose playback had
started is merely detached, its promise left as it was.  (The media
element delivers the AbortError on a microtask; the embedding applies it
at the stop itself.) -/
def abortSession (sess : Session) : Session :=
  if sess.live && !sess.playStarted then
    { sess with settled := settleWith SettleKind.rejectedAbort sess.settled,
                live := false }
  else
    { sess with live := false }

/-- Embedding of `AudioPlaybackService.stop` (lines 80-91): when an element
is attached, pause it (rejecting a still-pending `play()` promise, see
`abortSession`), drop it, and publish the inactive state; otherwise do
nothing. -/
def stop (s : SvcState) : SvcState :=
  if s.audioAttached then
    { sessions := s.sessions.map abortSession,
      audioAttached := false,
      statePlaying := false }
  else s

/-- Embedding of `AudioPlaybackService.playAudio` (lines 27-75) up to its
first suspension: stop any current playback, then create the new element
and its pending promise, with its `play()` not yet resolved. -/
def playAudio (s : SvcState) : SvcState :=
  let s1 := stop s
  let fresh : Session := { settled := none, live := true, playStarted := false }
  { s1 with sessions := fresh :: s1.sessions, audioAttached := true }

/-- Events the live audio element can deliver: metadata loaded, the
resolution of its `play()` promise (playback began), natural end of
stream, decode/open error.  A paused and dropped (superseded) element
delivers none of them. -/
inductive AudioEvent where
  | metaLoaded
  | playStarted
  | ended
  | errored
deriving DecidableEq, Repr

/-- Deliver one event to the newest session, mirroring the listeners
installed by `playAudio` (lines 34-73): `loadedmetadata` publishes the
playing state, the `play()` resolution marks playback started, `ended`
publishes inactive and resolves, `error` publishes inactive and rejects.
Only a live element delivers events. -/
def onEvent (s : SvcState) (e : AudioEvent) : SvcState :=
  match s.sessions with
  | [] => s
  | sess :: rest =>
      if sess.live then
        match e with
        | AudioEvent.metaLoaded => { s with statePlaying := true }
        | AudioEvent.playStarted =>
            let sess1 := { sess with playStarted := true }
            { s with sessions := sess1 :: rest }
        | AudioEvent.ended =>
            let sess1 := { sess with settled := settleWith SettleKind.resolvedEnd sess.settled }
            { s with sessions := sess1 :: rest, statePlaying := false }
        | AudioEvent.errored =>
            let sess1 := { sess with settled := settleWith SettleKind.rejectedErr sess.settled }
            { s with sessions := sess1 :: rest, statePlaying := false }
      else s

/-- Deliver a list of events in order. -/
def runEvents (s : SvcState) : List AudioEvent → SvcState
  | [] => s
  | e :: es => runEvents (onEvent s e) es

/-- A service state is well formed when a live session exists only while an
element is attached; all reachable states satisfy this. -/
def WF (s : SvcState) : Prop :=
  s.audioAttached = false → ∀ sess ∈ s.sessions, sess.live = false

end AudioSvc

namespace Ambient

/-- An ambient catalog entry (`interface AmbientClip`, part_002 lines
11-16): audio path, lip-sync CSV path, applicable body state, and trigger
probability. -/
structure AmbientClip where
  audioPath : String
  csvPath : String
  forState : AvatarState
  chance : ℚ
deriving DecidableEq, Repr

/-- The static ambient catalog of part_002 (lines 27-55). -/
def defaultAmbientClips : List AmbientClip :=
  [ { audioPath := "/assets/ambient-audio/idle/hello.wav",
      csvPath := "/assets/ambient-audio/idle/hello.csv",
      forState := AvatarState.idle, chance := mkRat 6 10 },
    { audioPath := "/assets/ambient-audio/idle/still_waiting.wav",
      csvPath := "/assets/ambient-audio/idle/still_waiting.csv",
      forState := AvatarState.idle, chance := mkRat 7 10 },
    { audioPath := "/assets/ambient-audio/idle/here_to_help.wav",
      csvPath := "/assets/ambient-audio/idle/here_to_help.csv",
      forState := AvatarState.idle, chance := mkRat 95 100 },
    { audioPath := "/assets/ambient-audio/thinking/let_me_think.wav",
      csvPath := "/assets/ambient-audio/thinking/let_me_think.csv",
      forState := AvatarState.thinking, chance := mkRat 8 10 } ]

/-- State of `AmbientAudioService` (part_002) as one trigger attempt reads
and writes it: the enabled flag, the ambient in-flight flag `isPlaying`,
the observed body state, what `audioPlayback.isPlaying()` returns, and the
clip catalog field. -/
structure AmbientState where
  enabled : Bool
  isPlaying : Bool
  currentBodyState : AvatarState
  audioActive : Bool
  ambientClips : List AmbientClip
deriving DecidableEq, Repr

/-- Where a trigger attempt stopped: each abort constructor is one early
return of `tryPlayAmbient`; `played` means the attempt reached
`playAmbientClip` with the given clip. -/
inductive AmbientOutcome where
  | abortDisabled
  | abortAudioActive
  | abortInFlight
  | abortBodyState
  | abortNoClips
  | abortRoll (clip : AmbientClip)
  | played (clip : AmbientClip)
deriving DecidableEq, Repr

/-- Whether an outcome proceeded to playback. -/
def AmbientOutcome.isProceed : AmbientOutcome → Bool
  | AmbientOutcome.played _ => true
  | _ => false

/-- The `availableClips` filter of `tryPlayAmbient` (part_002, lines
177-179): catalog entries matching the current body state.  The safety
reset never changes `currentBodyState` or `ambientClips`, so the filter is
the same whether computed before or after it. -/
def matchingClips (s : AmbientState) : List AmbientClip :=
  s.ambientClips.filter (fun c => c.forState = s.currentBodyState)

/-- Embedding of `AmbientAudioService.tryPlayAmbient` (part_002, lines
141-200) together with the synchronous head of `playAmbientClip` (line
208, `this.isPlaying = true`): guards in source order — disabled, audio
service playing, the stuck-flag safety reset, ambient in flight, body
state, empty clip set, probability roll — then mark in flight and start
the clip.  `r` is the uniform clip draw (`Math.floor(Math.random() * n)`
modelled as `r % n`), `roll` the uniform probability roll `Math.random()`. -/
def tryPlayAmbient (s : AmbientState) (r : Nat) (roll : ℚ) :
    AmbientState × AmbientOutcome :=
  if ¬ s.enabled then (s, AmbientOutcome.abortDisabled)
  else if s.audioActive then (s, AmbientOutcome.abortAudioActive)
  else
    let s1 := if s.isPlaying && ¬ s.audioActive then { s with isPlaying := false } else s
    if s1.isPlaying then (s1, AmbientOutcome.abortInFlight)
    else if s1.currentBodyState ≠ AvatarState.idle ∧
            s1.currentBodyState ≠ AvatarState.thinking then
      (s1, AmbientOutcome.abortBodyState)
    else
      let avail := matchingClips s1
      if h : avail.length = 0 then (s1, AmbientOutcome.abortNoClips)
      else
        let clip := avail.get ⟨r % avail.length, Nat.mod_lt r (Nat.pos_of_ne_zero h)⟩
        if roll > clip.chance then (s1, AmbientOutcome.abortRoll clip)
        else ({ s1 with isPlaying := true }, AmbientOutcome.played clip)

end Ambient

namespace Chat

/-- A chat message as `playMessageAudio` touches it: identity, the
`isPlaying` flag, and whether it carries an audio URL and lip-sync CSV
data. -/
structure Msg where
  id : Nat
  isPlaying : Bool
  hasAudio : Bool
  hasCsv : Bool
deriving DecidableEq, Repr

/-- The shared mutable state `ChatInterfaceComponent` threads through its
asynchronous playback sequences: the playback token counter, the
orchestrator's published state, the face service's bound targets and
active flag, the audio service activity, and the message list. -/
structure ChatState where
  currentPlaybackId : Nat
  avatarState : AvatarState
  faceMeshes : List FaceAnim.Mesh
  faceAnimating : Bool
  audioOn : Bool
  messages : List Msg
deriving DecidableEq, Repr

/-- Set the `isPlaying` flag of the message at index `mi`. -/
def setMsgPlaying (g : ChatState) (mi : Nat) (b : Bool) : ChatState :=
  { g with messages :=
      g.messages.enum.map (fun p => if p.1 = mi then { p.2 with isPlaying := b } else p.2) }

/-- Embedding of `ChatInterfaceComponent.stopAllPlayback` (chat-interface.ts
lines 269-274): stop audio, stop lip-sync (which resets the face), and
clear every message's `isPlaying` flag. -/
def stopAllPlayback (g : ChatState) : ChatState :=
  { g with audioOn := false,
           faceAnimating := false,
           faceMeshes := FaceAnim.resetFace g.faceMeshes,
           messages := g.messages.map (fun m => { m with isPlaying := false }) }

/-- The effect of `animationService.startLipSync` as `playMessageAudio`
invokes it (part_006 lines 89-96): restart face animation and force the
talking state. -/
def startLipSyncTalking (g : ChatState) : ChatState :=
  { g with faceAnimating := true, avatarState := AvatarState.talking }

/-- The synchronous prologue of `sendMessage` (lines 98-100): stop all
playback, then increment the playback token. -/
def sendMessagePrologue (g : ChatState) : ChatState :=
  let g1 := stopAllPlayback g
  { g1 with currentPlaybackId := g1.currentPlaybackId + 1 }

/-- Embedding of `playMessageAudio` up to its first suspension (lines
185-199): bail out without audio, discard when the captured token is
already stale, otherwise stop everything and mark the message playing. -/
def playAudioEntry (g : ChatState) (mi : Nat) (captured : Option Nat) : ChatState :=
  match g.messages.get? mi with
  | none => g
  | some msg =>
      if ¬ msg.hasAudio then g
      else
        match captured with
        | some k =>
            if k ≠ g.currentPlaybackId then g
            else setMsgPlaying (stopAllPlayback g) mi true
        | none => setMsgPlaying (stopAllPlayback g) mi true

/-- Embedding of the continuation of `playMessageAudio` after the 50 ms
settle delay (lines 202-232): when the captured token is stale, clear the
message's flag and discard; otherwise start lip-sync (CSV present) or set
the talking state directly, then start the audio. -/
def playAudioAfterDelay (g : ChatState) (mi : Nat) (captured : Option Nat) : ChatState :=
  let stale : Bool := match captured with
    | some k => k != g.currentPlaybackId
    | none => false
  if stale then setMsgPlaying g mi false
  else
    let g1 := match g.messages.get? mi with
      | some msg => if msg.hasCsv then startLipSyncTalking g
                    else { g with avatarState := AvatarState.talking }
      | none => g
    { g1 with audioOn := true }

/-- Embedding of the `finally` continuation of `playMessageAudio` (lines
237-247), run when the awaited audio settles: only when the captured token
is still current (or no token was captured) clear the message's flag, stop
lip-sync, and return to idle; a stale completion does nothing. -/
def playAudioFinally (g : ChatState) (mi : Nat) (captured : Option Nat) : ChatState :=
  let currentStill : Bool := match captured with
    | some k => k == g.currentPlaybackId
    | none => true
  if currentStill then
    let g1 := setMsgPlaying g mi false
    let g2 := { g1 with faceAnimating := false,
                        faceMeshes := FaceAnim.resetFace g1.faceMeshes }
    { g2 with avatarState := AvatarState.idle }
  else g

end Chat

/-- The lip-sync data blob of the round-trip scenario: header
`timeCode,blendShapes.JawOpen` and the rows `(0.0, 0.2)` and
`(0.033, 0.5)`. -/
def lipSyncBlobExample : String :=
  "timeCode,blendShapes.JawOpen\n0.0,0.2\n0.033,0.5"

/-- The parsed row at timestamp 0.033 of `lipSyncBlobExample`. -/
def lipSyncFrameExample : CSV.Row :=
  [("timeCode", mkRat 33 1000), ("blendShapes.JawOpen", mkRat 1 2)]

/-- Claim C4: a `setAvatarState` call whose argument equals the currently
published `AvatarState` is a no-op — the state record is unchanged, so no
new value is published and no `playRandomAnimation` request is issued;
a call with a different argument publishes exactly the new state once and,
when the body loader is ready, then requests body playback. -/
theorem setAvatarState_idempotent_noop (s : Orchestrator.OrchState)
    (st : AvatarState) :
    (st = s.avatarState → Orchestrator.setAvatarState s st = s) ∧
    (st ≠ s.avatarState →
      (Orchestrator.setAvatarState s st).published = s.published ++ [st] ∧
      (Orchestrator.setAvatarState s st).avatarState = st ∧
      (s.bodyReady = true →
        (Orchestrator.setAvatarState s st).bodyRequests
          = s.bodyRequests ++ [st])) := by
  constructor
  · intro h
    simp [Orchestrator.setAvatarState, h.symm]
  · intro h
    have hne : ¬ s.avatarState = st := fun hc => h hc.symm
    refine ⟨?_, ?_, ?_⟩ <;>
      · simp only [Orchestrator.setAvatarState, if_neg hne]
        by_cases hr : s.bodyReady = true <;> simp [hr]

/-- Witness for C4 at a concrete state. -/
theorem setAvatarState_idempotent_noop_witness :
    Orchestrator.setAvatarState
        ⟨AvatarState.idle, [], none, false, true, []⟩ AvatarState.idle
      = ⟨AvatarState.idle, [], none, false, true, []⟩ ∧
    (Orchestrator.setAvatarState
        ⟨AvatarState.idle, [], none, false, true, []⟩
        AvatarState.thinking).bodyRequests = [AvatarState.thinking] := by
  refine ⟨(setAvatarState_idempotent_noop _ AvatarState.idle).1 rfl, ?_⟩
  have h := (setAvatarState_idempotent_noop
      ⟨AvatarState.idle, [], none, false, true, []⟩ AvatarState.thinking).2
      (by decide)
  exact (h.2.2 rfl).trans (by decide)

/-- Claim C8: while the body loader is not ready, a `setAvatarState` call
issues no playback request; a state-changing call overwrites the single
pending slot with the new (most recent) state, superseding any earlier
pending request; the readiness continuation flushes exactly the pending
request and clears the slot; and while ready, a state-changing call
delegates immediately. -/
theorem pending_request_queue (s : Orchestrator.OrchState)
    (st : AvatarState) (p : AvatarState) :
    (s.bodyReady = false →
      (Orchestrator.setAvatarState s st).bodyRequests = s.bodyRequests) ∧
    (s.bodyReady = false → st ≠ s.avatarState →
      (Orchestrator.setAvatarState s st).pendingState = some st) ∧
    (s.hasReadySub = true → s.pendingState = some p →
      (Orchestrator.onReady s).bodyRequests = s.bodyRequests ++ [p] ∧
      (Orchestrator.onReady s).pendingState = none) ∧
    (s.bodyReady = true → st ≠ s.avatarState →
      (Orchestrator.setAvatarState s st).bodyRequests
        = s.bodyRequests ++ [st]) := by
  refine ⟨?_, ?_, ?_, ?_⟩
  · intro hnr
    by_cases h : s.avatarState = st <;>
      simp [Orchestrator.setAvatarState, h, hnr]
  · intro hnr hne
    have h : ¬ s.avatarState = st := fun hc => hne hc.symm
    simp [Orchestrator.setAvatarState, h, hnr]
  · intro hsub hp
    constructor <;> simp [Orchestrator.onReady, hsub, hp]
  · intro hr hne
    have h : ¬ s.avatarState = st := fun hc => hne hc.symm
    simp [Orchestrator.setAvatarState, h, hr]

/-- Witness for C8: two not-ready calls queue only the most recent state,
which the readiness continuation then flushes as the only request. -/
theorem pending_request_queue_witness :
    (Orchestrator.onReady
        (Orchestrator.setAvatarState
          (Orchestrator.setAvatarState
            ⟨AvatarState.idle, [], none, false, false, []⟩
            AvatarState.thinking)
          AvatarState.talking)).bodyRequests = [AvatarState.talking] := by
  have h3 := (pending_request_queue
      (Orchestrator.setAvatarState
        (Orchestrator.setAvatarState
          ⟨AvatarState.idle, [], none, false, false, []⟩
          AvatarState.thinking)
        AvatarState.talking)
      AvatarState.idle AvatarState.talking).2.2.1
      (by decide) (by decide)
  exact h3.1.trans (by decide)

/-- Claim C9: with the mixer present and the library loaded, every
`playRandom` request selects the clip whose index in the requested
category's set equals the uniform draw reduced modulo the set size (each
clip is hit by exactly one residue, i.e. the selection is uniform over the
tagged clips); when the requested category is `thinking` and no
thinking-tagged clip exists, selection falls back to the idle set, so a
clip is still played whenever the idle set is non-empty. -/
theorem playRandom_uniform_thinking_fallback (l : BodyLoader.LoaderState)
    (state : AvatarState) (r : Nat)
    (hm : l.hasMixer = true) (hl : l.isLoaded = true) :
    (∀ h : (BodyLoader.availableFor l state).length ≠ 0,
      BodyLoader.playRandomAnimation l state r
        = some ((BodyLoader.availableFor l state).get
            ⟨r % (BodyLoader.availableFor l state).length,
             Nat.mod_lt r (Nat.pos_of_ne_zero h)⟩)) ∧
    (l.thinkingAnimations = [] →
      BodyLoader.availableFor l AvatarState.thinking = l.idleAnimations) ∧
    (l.thinkingAnimations = [] → l.idleAnimations ≠ [] →
      ∃ c, BodyLoader.playRandomAnimation l AvatarState.thinking r = some c ∧
        c ∈ l.idleAnimations) := by
  have hfall : l.thinkingAnimations = [] →
      BodyLoader.availableFor l AvatarState.thinking = l.idleAnimations := by
    intro he
    simp [BodyLoader.availableFor, he]
  refine ⟨?_, hfall, ?_⟩
  · intro h
    simp [BodyLoader.playRandomAnimation, hm, hl, h]
  · intro he hne
    have hlen : (BodyLoader.availableFor l AvatarState.thinking).length ≠ 0 := by
      rw [hfall he]
      simpa using hne
    refine ⟨(BodyLoader.availableFor l AvatarState.thinking).get
        ⟨r % _, Nat.mod_lt r (Nat.pos_of_ne_zero hlen)⟩, ?_, ?_⟩
    · simp [BodyLoader.playRandomAnimation, hm, hl, hlen]
    · rw [← hfall he]
      exact List.get_mem _ _ _

/-- Witness for C9: with only idle clips loaded, a `thinking` request plays
an idle clip. -/
theorem playRandom_uniform_thinking_fallback_witness :
    BodyLoader.playRandomAnimation
        ⟨true, true, [⟨"breathing_idle", AvatarState.idle⟩], [], []⟩
        AvatarState.thinking 5
      = some ⟨"breathing_idle", AvatarState.idle⟩ := by
  have h := (playRandom_uniform_thinking_fallback
      ⟨true, true, [⟨"breathing_idle", AvatarState.idle⟩], [], []⟩
      AvatarState.thinking 5 rfl rfl).2.2 rfl (by decide)
  obtain ⟨c, hc, hmem⟩ := h
  have hcv : c = ⟨"breathing_idle", AvatarState.idle⟩ := by
    simpa using hmem
  rw [hc, hcv]

/-- Claim C3: after any `stopLipSync` call — from any service state, active
or not, whatever frame was last applied — every bound target's intensity
array holds exactly 0 in every entry; the reset happens inside the call
itself (the embedding performs it in the returned state, with no further
event needed). -/
theorem stopLipSync_resets_all_intensities (s : FaceAnim.FaceState)
    (mesh : FaceAnim.Mesh)
    (hm : mesh ∈ (FaceAnim.stopLipSync s).morphTargetMeshes)
    (arr : List ℚ) (ha : mesh.morphTargetInfluences = some arr) :
    (∀ x ∈ arr, x = 0) ∧ (FaceAnim.stopLipSync s).isAnimating = false := by
  refine ⟨?_, rfl⟩
  intro x hx
  simp only [FaceAnim.stopLipSync, FaceAnim.resetFace, List.mem_map] at hm
  obtain ⟨m0, _, hmap⟩ := hm
  cases h0 : m0.morphTargetInfluences with
  | none =>
      rw [h0] at hmap
      rw [← hmap] at ha
      rw [h0] at ha
      exact absurd ha (by simp)
  | some arr0 =>
      rw [h0] at hmap
      rw [← hmap] at ha
      simp only [Option.some.injEq] at ha
      rw [← ha] at hx
      simp only [List.mem_map] at hx
      obtain ⟨_, _, hz⟩ := hx
      exact hz.symm

/-- Witness for C3: stopping lip-sync on a mesh whose jaw channel was left
at intensity 0.5 deactivates the loop, and the entries of the resulting
zeroed array are 0. -/
theorem stopLipSync_resets_all_intensities_witness :
    (FaceAnim.stopLipSync
        ⟨[⟨some [("jawOpen", 1)], some [(0 : ℚ), mkRat 1 2]⟩],
          some 7, true, []⟩).isAnimating = false ∧ (0 : ℚ) = 0 := by
  have hm : (⟨some [("jawOpen", 1)], some [(0 : ℚ), 0]⟩ : FaceAnim.Mesh)
      ∈ (FaceAnim.stopLipSync
          ⟨[⟨some [("jawOpen", 1)], some [(0 : ℚ), mkRat 1 2]⟩],
            some 7, true, []⟩).morphTargetMeshes := by
    decide
  have h := stopLipSync_resets_all_intensities
      ⟨[⟨some [("jawOpen", 1)], some [(0 : ℚ), mkRat 1 2]⟩], some 7, true, []⟩
      ⟨some [("jawOpen", 1)], some [(0 : ℚ), 0]⟩ hm
      [(0 : ℚ), 0] rfl
  exact ⟨h.2, h.1 0 (by decide)⟩

/-- Claim C7: parsing the blob with header `timeCode,blendShapes.JawOpen`
and rows `(0.0, 0.2)`, `(0.033, 0.5)`, then sampling at audio position
0.034 s, selects the row at 0.033 (the only one within the 0.033
tolerance), and applying that row writes intensity 0.5 at the index any
bound target's lookup table gives for the `jawOpen` channel (falling back
to `JawOpen` when the lower-cased name is absent). -/
theorem lipSync_roundTrip_jawOpen (d : List (String × Nat)) (arr : List ℚ)
    (i : Nat)
    (hd : d.lookup "jawOpen" = some i ∨
          (d.lookup "jawOpen" = none ∧ d.lookup "JawOpen" = some i)) :
    FaceAnim.findFrame (CSV.parseCSV lipSyncBlobExample) (mkRat 34 1000)
      = some lipSyncFrameExample ∧
    (FaceAnim.applyFrameMesh lipSyncFrameExample
        ⟨some d, some arr⟩).morphTargetInfluences
      = some (arr.set i (mkRat 1 2)) := by
  refine ⟨by decide, ?_⟩
  have h1 : FaceAnim.startsWithBlendShapes "timeCode" = false := by decide
  have h2 : FaceAnim.startsWithBlendShapes "blendShapes.JawOpen" = true := by decide
  have h3 : FaceAnim.lowerFirst (FaceAnim.stripBlendShapes "blendShapes.JawOpen")
      = "jawOpen" := by decide
  have h4 : FaceAnim.stripBlendShapes "blendShapes.JawOpen" = "JawOpen" := by decide
  have h5 : FaceAnim.lowerFirst "JawOpen" = "jawOpen" := by decide
  simp only [FaceAnim.applyFrameMesh, lipSyncFrameExample, List.foldl,
    h1, h2, h3, h4, Bool.not_true, Bool.not_false, Bool.false_eq_true,
    if_false, if_true, ite_true, ite_false]
  rcases hd with hl | ⟨hn, hs⟩
  · simp [h5, hl, FaceAnim.setInfluence]
  · simp [h5, hn, hs, FaceAnim.setInfluence]

/-- Witness for C7 on a target whose table maps `jawOpen` to index 0. -/
theorem lipSync_roundTrip_jawOpen_witness :
    (FaceAnim.applyFrameMesh lipSyncFrameExample
        ⟨some [("jawOpen", 0)], some [(0 : ℚ)]⟩).morphTargetInfluences
      = some [mkRat 1 2] := by
  have h := (lipSync_roundTrip_jawOpen [("jawOpen", 0)] [(0 : ℚ)] 0
      (Or.inl (by decide))).2
  exact h.trans (by decide)

/-- Counterexample to claim C5 as stated: with the scheduler enabled, the
in-flight flag set, the body idle, and no foreground audio, the trigger
attempt does not abort — it proceeds to playback (first conjunct); and
with the body talking and a stuck flag, the attempt aborts but still
changes state by resetting the flag (second conjunct). -/
theorem ambient_inflight_abort_counterexample :
    ((Ambient.tryPlayAmbient
        ⟨true, true, AvatarState.idle, false, Ambient.defaultAmbientClips⟩
        0 0).snd).isProceed = true ∧
    (Ambient.tryPlayAmbient
        ⟨true, true, AvatarState.talking, false, Ambient.defaultAmbientClips⟩
        0 0).fst
      ≠ ⟨true, true, AvatarState.talking, false, Ambient.defaultAmbientClips⟩ := by
  decide

/-- Claim C5 as amended: a trigger attempt aborts immediately with no state
change when the scheduler is disabled or when foreground audio is active;
when `AvatarState` is `talking` it aborts without starting playback,
though a stuck in-flight flag is first reset to false; an attempt with the
in-flight flag set but no active audio is not aborted by that flag (the
flag is self-healed, part_002 lines 159-163, and the attempt continues);
consequently playback only ever starts when the scheduler is enabled, no
foreground audio is active, and the body state is not `talking`. -/
theorem ambient_trigger_guards (s : Ambient.AmbientState) (r : Nat)
    (roll : ℚ) :
    (s.enabled = false →
      Ambient.tryPlayAmbient s r roll = (s, Ambient.AmbientOutcome.abortDisabled)) ∧
    (s.enabled = true → s.audioActive = true →
      Ambient.tryPlayAmbient s r roll = (s, Ambient.AmbientOutcome.abortAudioActive)) ∧
    (s.enabled = true → s.audioActive = false →
      s.currentBodyState = AvatarState.talking →
      Ambient.tryPlayAmbient s r roll
        = ({ s with isPlaying := false }, Ambient.AmbientOutcome.abortBodyState)) ∧
    (∀ c, (Ambient.tryPlayAmbient s r roll).snd = Ambient.AmbientOutcome.played c →
      s.enabled = true ∧ s.audioActive = false ∧
      s.currentBodyState ≠ AvatarState.talking) := by
  refine ⟨?_, ?_, ?_, ?_⟩
  · intro he
    simp [Ambient.tryPlayAmbient, he]
  · intro he ha
    simp [Ambient.tryPlayAmbient, he, ha]
  · intro he ha ht
    by_cases hp : s.isPlaying
    · simp [Ambient.tryPlayAmbient, he, ha, hp, ht]
    · have hs : ({ s with isPlaying := false } : Ambient.AmbientState) = s := by
        cases s
        simp_all
      rw [hs]
      simp [Ambient.tryPlayAmbient, he, ha, hp, ht]
  · intro c h
    by_cases he : s.enabled
    · by_cases ha : s.audioActive
      · simp [Ambient.tryPlayAmbient, he, ha] at h
      · refine ⟨he, by simpa using ha, ?_⟩
        intro ht
        by_cases hp : s.isPlaying <;>
          simp [Ambient.tryPlayAmbient, he, ha, hp, ht] at h
    · simp [Ambient.tryPlayAmbient, he] at h

/-- Witness for the amended C5 at concrete states: a disabled attempt and
an audio-busy attempt return the state unchanged with the corresponding
abort. -/
theorem ambient_trigger_guards_witness :
    Ambient.tryPlayAmbient
        ⟨false, false, AvatarState.idle, false, Ambient.defaultAmbientClips⟩ 0 0
      = (⟨false, false, AvatarState.idle, false, Ambient.defaultAmbientClips⟩,
         Ambient.AmbientOutcome.abortDisabled) ∧
    Ambient.tryPlayAmbient
        ⟨true, false, AvatarState.idle, true, Ambient.defaultAmbientClips⟩ 3 0
      = (⟨true, false, AvatarState.idle, true, Ambient.defaultAmbientClips⟩,
         Ambient.AmbientOutcome.abortAudioActive) := by
  constructor
  · exact (ambient_trigger_guards _ 0 0).1 rfl
  · exact (ambient_trigger_guards _ 3 0).2.1 rfl rfl


/-- Claim C6: when a trigger attempt reaches the probability step (enabled,
no foreground audio, not in flight, body not talking, matching clips
present) and the uniform roll exceeds the selected clip's probability, the
attempt stops with the roll-abort outcome and the state exactly unchanged —
no playback started, in-flight flag still false, body state untouched;
when the roll is less than or equal to the probability, the attempt
proceeds to play that clip, setting only the in-flight flag. -/
theorem ambient_probability_roll (s : Ambient.AmbientState) (r : Nat)
    (roll : ℚ) (clip : Ambient.AmbientClip)
    (he : s.enabled = true) (ha : s.audioActive = false)
    (hp : s.isPlaying = false)
    (hb : s.currentBodyState ≠ AvatarState.talking)
    (hn : (Ambient.matchingClips s).length ≠ 0)
    (hc : (Ambient.matchingClips s).get
        ⟨r % (Ambient.matchingClips s).length,
         Nat.mod_lt r (Nat.pos_of_ne_zero hn)⟩ = clip) :
    (roll > clip.chance →
      Ambient.tryPlayAmbient s r roll
        = (s, Ambient.AmbientOutcome.abortRoll clip)) ∧
    (roll ≤ clip.chance →
      Ambient.tryPlayAmbient s r roll
        = ({ s with isPlaying := true }, Ambient.AmbientOutcome.played clip)) := by
  obtain ⟨en, pl, bs, aa, clips⟩ := s
  simp only at he ha hp hb
  subst he ha hp
  have hbody : ¬ (bs ≠ AvatarState.idle ∧ bs ≠ AvatarState.thinking) := by
    cases bs <;> simp_all
  have step : ∀ roll1 : ℚ,
      Ambient.tryPlayAmbient ⟨true, false, bs, false, clips⟩ r roll1
        = if roll1 > clip.chance then
            (⟨true, false, bs, false, clips⟩, Ambient.AmbientOutcome.abortRoll clip)
          else
            (⟨true, true, bs, false, clips⟩, Ambient.AmbientOutcome.played clip) := by
    intro roll1
    rw [Ambient.tryPlayAmbient]
    rw [if_neg (by simp)]
    rw [if_neg (by simp)]
    simp only [Bool.false_and, if_neg (by simp : ¬ ((false : Bool) = true))]
    rw [if_neg (by simpa using hbody)]
    rw [dif_neg hn]
    rw [← hc]
    rfl
  constructor
  · intro hroll
    rw [step roll, if_pos hroll]
  · intro hroll
    rw [step roll, if_neg (not_lt.mpr hroll)]

/-- Witness for C6: a roll of 0.99 against the 0.6-chance idle clip aborts
with the state unchanged. -/
theorem ambient_probability_roll_witness :
    Ambient.tryPlayAmbient
        ⟨true, false, AvatarState.idle, false, Ambient.defaultAmbientClips⟩
        0 (mkRat 99 100)
      = (⟨true, false, AvatarState.idle, false, Ambient.defaultAmbientClips⟩,
         Ambient.AmbientOutcome.abortRoll
           ⟨"/assets/ambient-audio/idle/hello.wav",
            "/assets/ambient-audio/idle/hello.csv",
            AvatarState.idle, mkRat 6 10⟩) := by
  exact (ambient_probability_roll
      ⟨true, false, AvatarState.idle, false, Ambient.defaultAmbientClips⟩
      0 (mkRat 99 100)
      ⟨"/assets/ambient-audio/idle/hello.wav",
       "/assets/ambient-audio/idle/hello.csv",
       AvatarState.idle, mkRat 6 10⟩
      rfl rfl rfl (by decide) (by decide) (by decide)).1 (by decide)

/-- Evaluation of a trigger attempt from a clean flag state while the body
is talking: abort at the body-state guard with nothing else changed. -/
theorem tryPlayAmbient_clean_talking (clips : List Ambient.AmbientClip)
    (r : Nat) (roll : ℚ) :
    Ambient.tryPlayAmbient ⟨true, false, AvatarState.talking, false, clips⟩ r roll
      = (⟨true, false, AvatarState.talking, false, clips⟩,
         Ambient.AmbientOutcome.abortBodyState) := rfl

/-- Evaluation of a trigger attempt from a clean flag state while idle:
reduced to the clip-set and probability branches. -/
theorem tryPlayAmbient_clean_step_idle (clips : List Ambient.AmbientClip)
    (r : Nat) (roll : ℚ) :
    Ambient.tryPlayAmbient ⟨true, false, AvatarState.idle, false, clips⟩ r roll
      = (if h : (Ambient.matchingClips
            (⟨true, false, AvatarState.idle, false, clips⟩ : Ambient.AmbientState)).length = 0 then
          ((⟨true, false, AvatarState.idle, false, clips⟩ : Ambient.AmbientState),
            Ambient.AmbientOutcome.abortNoClips)
        else
          let clip := (Ambient.matchingClips
              (⟨true, false, AvatarState.idle, false, clips⟩ : Ambient.AmbientState)).get
              ⟨r % (Ambient.matchingClips
                  (⟨true, false, AvatarState.idle, false, clips⟩ : Ambient.AmbientState)).length,
               Nat.mod_lt r (Nat.pos_of_ne_zero h)⟩
          if roll > clip.chance then
            ((⟨true, false, AvatarState.idle, false, clips⟩ : Ambient.AmbientState),
              Ambient.AmbientOutcome.abortRoll clip)
          else
            ((⟨true, true, AvatarState.idle, false, clips⟩ : Ambient.AmbientState),
              Ambient.AmbientOutcome.played clip)) := rfl

/-- Evaluation of a trigger attempt from a clean flag state while thinking:
reduced to the clip-set and probability branches. -/
theorem tryPlayAmbient_clean_step_thinking (clips : List Ambient.AmbientClip)
    (r : Nat) (roll : ℚ) :
    Ambient.tryPlayAmbient ⟨true, false, AvatarState.thinking, false, clips⟩ r roll
      = (if h : (Ambient.matchingClips
            (⟨true, false, AvatarState.thinking, false, clips⟩ : Ambient.AmbientState)).length = 0 then
          ((⟨true, false, AvatarState.thinking, false, clips⟩ : Ambient.AmbientState),
            Ambient.AmbientOutcome.abortNoClips)
        else
          let clip := (Ambient.matchingClips
              (⟨true, false, AvatarState.thinking, false, clips⟩ : Ambient.AmbientState)).get
              ⟨r % (Ambient.matchingClips
                  (⟨true, false, AvatarState.thinking, false, clips⟩ : Ambient.AmbientState)).length,
               Nat.mod_lt r (Nat.pos_of_ne_zero h)⟩
          if roll > clip.chance then
            ((⟨true, false, AvatarState.thinking, false, clips⟩ : Ambient.AmbientState),
              Ambient.AmbientOutcome.abortRoll clip)
          else
            ((⟨true, true, AvatarState.thinking, false, clips⟩ : Ambient.AmbientState),
              Ambient.AmbientOutcome.played clip)) := rfl

/-- Claim C10: on a trigger attempt that passes the enabled and
foreground-audio guards while the in-flight flag is stuck true with no
active audio, the flag is reset before the remaining guards run, so the
attempt is never aborted as in-flight; every abort at a later guard leaves
the flag false (healed, no longer suppressing future triggers), and only
an attempt that proceeds to playback sets it true again. -/
theorem ambient_stuck_flag_selfheal (s : Ambient.AmbientState) (r : Nat)
    (roll : ℚ)
    (he : s.enabled = true) (ha : s.audioActive = false)
    (hp : s.isPlaying = true) :
    (Ambient.tryPlayAmbient s r roll).snd ≠ Ambient.AmbientOutcome.abortInFlight ∧
    ((Ambient.tryPlayAmbient s r roll).snd.isProceed = false →
      (Ambient.tryPlayAmbient s r roll).fst.isPlaying = false) ∧
    ((Ambient.tryPlayAmbient s r roll).snd.isProceed = true →
      (Ambient.tryPlayAmbient s r roll).fst.isPlaying = true) := by
  obtain ⟨en, pl, bs, aa, clips⟩ := s
  simp only at he ha hp
  subst he ha hp
  have hheal : ∀ roll1 : ℚ,
      Ambient.tryPlayAmbient ⟨true, true, bs, false, clips⟩ r roll1
        = Ambient.tryPlayAmbient ⟨true, false, bs, false, clips⟩ r roll1 :=
    fun _ => rfl
  rw [hheal roll]
  cases bs with
  | talking =>
      rw [tryPlayAmbient_clean_talking]
      refine ⟨by simp, by simp, by simp [Ambient.AmbientOutcome.isProceed]⟩
  | idle =>
      rw [tryPlayAmbient_clean_step_idle]
      by_cases hl : (Ambient.matchingClips
          (⟨true, false, AvatarState.idle, false, clips⟩ : Ambient.AmbientState)).length = 0
      · rw [dif_pos hl]
        refine ⟨by simp, by simp, by simp [Ambient.AmbientOutcome.isProceed]⟩
      · rw [dif_neg hl]
        by_cases hr : roll > ((Ambient.matchingClips
            (⟨true, false, AvatarState.idle, false, clips⟩ : Ambient.AmbientState)).get
            ⟨r % (Ambient.matchingClips
                (⟨true, false, AvatarState.idle, false, clips⟩ : Ambient.AmbientState)).length,
             Nat.mod_lt r (Nat.pos_of_ne_zero hl)⟩).chance
        · simp only [if_pos hr]
          refine ⟨by simp, by simp, by simp [Ambient.AmbientOutcome.isProceed]⟩
        · simp only [if_neg hr]
          refine ⟨by simp, by simp [Ambient.AmbientOutcome.isProceed], by simp⟩
  | thinking =>
      rw [tryPlayAmbient_clean_step_thinking]
      by_cases hl : (Ambient.matchingClips
          (⟨true, false, AvatarState.thinking, false, clips⟩ : Ambient.AmbientState)).length = 0
      · rw [dif_pos hl]
        refine ⟨by simp, by simp, by simp [Ambient.AmbientOutcome.isProceed]⟩
      · rw [dif_neg hl]
        by_cases hr : roll > ((Ambient.matchingClips
            (⟨true, false, AvatarState.thinking, false, clips⟩ : Ambient.AmbientState)).get
            ⟨r % (Ambient.matchingClips
                (⟨true, false, AvatarState.thinking, false, clips⟩ : Ambient.AmbientState)).length,
             Nat.mod_lt r (Nat.pos_of_ne_zero hl)⟩).chance
        · simp only [if_pos hr]
          refine ⟨by simp, by simp, by simp [Ambient.AmbientOutcome.isProceed]⟩
        · simp only [if_neg hr]
          refine ⟨by simp, by simp [Ambient.AmbientOutcome.isProceed], by simp⟩

/-- Witness for C10: a stuck flag with the body talking is healed — the
attempt aborts at the body-state guard with the flag already false. -/
theorem ambient_stuck_flag_selfheal_witness :
    (Ambient.tryPlayAmbient
        ⟨true, true, AvatarState.talking, false, Ambient.defaultAmbientClips⟩
        0 0).fst.isPlaying = false := by
  exact (ambient_stuck_flag_selfheal
      ⟨true, true, AvatarState.talking, false, Ambient.defaultAmbientClips⟩
      0 0 rfl rfl rfl).2.1 (by decide)

/-- Counterexample to claim C1 as stated: a continuation of
`playMessageAudio` that captured token 1 and resumes after the token was
incremented to 2 (the post-delay check, chat-interface.ts lines 202-206)
does mutate a message's `isPlaying` flag — it writes it back to false —
so a stale continuation is not entirely mutation-free. -/
theorem stale_token_discard_counterexample :
    (1 : Nat) ≠ 2 ∧
    (Chat.playAudioAfterDelay
        ⟨2, AvatarState.talking, [], true, true, [⟨1, true, true, true⟩]⟩
        0 (some 1)).messages
      ≠ [(⟨1, true, true, true⟩ : Chat.Msg)] := by
  decide

/-- Claim C1 as amended: a continuation of a message-send or replay
sequence that captured a stale token mutates neither the published
`AvatarState` nor the bound face targets nor the lip-sync flag; the
initial invocation discards with the whole state unchanged; the post-delay
continuation's only write is clearing its own message's `isPlaying` flag
back to false; the completion (`finally`) continuation is a complete
no-op when stale, so only the sequence holding the current token performs
the transition back to idle. -/
theorem stale_token_discard (g : Chat.ChatState) (mi : Nat) (k : Nat)
    (hstale : k ≠ g.currentPlaybackId) :
    Chat.playAudioEntry g mi (some k) = g ∧
    Chat.playAudioAfterDelay g mi (some k) = Chat.setMsgPlaying g mi false ∧
    ((Chat.playAudioAfterDelay g mi (some k)).avatarState = g.avatarState ∧
     (Chat.playAudioAfterDelay g mi (some k)).faceMeshes = g.faceMeshes ∧
     (Chat.playAudioAfterDelay g mi (some k)).faceAnimating = g.faceAnimating) ∧
    Chat.playAudioFinally g mi (some k) = g ∧
    (Chat.playAudioFinally g mi (some g.currentPlaybackId)).avatarState
      = AvatarState.idle := by
  have hkb : (k != g.currentPlaybackId) = true := by
    simpa using hstale
  have hdelay : Chat.playAudioAfterDelay g mi (some k)
      = Chat.setMsgPlaying g mi false := by
    simp [Chat.playAudioAfterDelay, hkb]
  refine ⟨?_, hdelay, ?_, ?_, ?_⟩
  · cases hmsg : g.messages[mi]? with
    | none => simp [Chat.playAudioEntry, hmsg]
    | some msg =>
        by_cases haud : msg.hasAudio <;>
          simp [Chat.playAudioEntry, hmsg, haud, hstale]
  · rw [hdelay]
    exact ⟨rfl, rfl, rfl⟩
  · have hkeq : (k == g.currentPlaybackId) = false := by
      simpa using hstale
    simp [Chat.playAudioFinally, hkeq]
  · simp [Chat.playAudioFinally]

/-- Witness for the amended C1: a stale completion leaves the concrete
state untouched, and the current-token completion drives idle. -/
theorem stale_token_discard_witness :
    Chat.playAudioFinally
        ⟨2, AvatarState.talking, [], true, true, [⟨1, true, true, true⟩]⟩
        0 (some 1)
      = ⟨2, AvatarState.talking, [], true, true, [⟨1, true, true, true⟩]⟩ ∧
    (Chat.playAudioFinally
        ⟨2, AvatarState.talking, [], true, true, [⟨1, true, true, true⟩]⟩
        0 (some 2)).avatarState = AvatarState.idle := by
  constructor
  · exact (stale_token_discard
      ⟨2, AvatarState.talking, [], true, true, [⟨1, true, true, true⟩]⟩
      0 1 (by decide)).2.2.2.1
  · exact (stale_token_discard
      ⟨2, AvatarState.talking, [], true, true, [⟨1, true, true, true⟩]⟩
      0 1 (by decide)).2.2.2.2

/-- One event delivery changes a session only by settling a pending head:
liveness is preserved, a settled promise keeps its settlement, and a dead
(superseded) session is completely untouched. -/
theorem onEvent_session_evolution (s : AudioSvc.SvcState)
    (e : AudioSvc.AudioEvent) (n : Nat) (sess : AudioSvc.Session)
    (h : s.sessions[n]? = some sess) :
    ∃ sess', (AudioSvc.onEvent s e).sessions[n]? = some sess' ∧
      sess'.live = sess.live ∧
      (∀ k, sess.settled = some k → sess'.settled = some k) ∧
      (sess.live = false → sess' = sess) := by
  cases hs : s.sessions with
  | nil =>
      rw [hs] at h
      simp at h
  | cons hd rest =>
      rw [hs] at h
      by_cases hl : hd.live
      · cases e with
        | metaLoaded =>
            refine ⟨sess, ?_, rfl, fun k hk => hk, fun _ => rfl⟩
            simp only [AudioSvc.onEvent, hs, hl, if_true, ite_true]
            exact h
        | playStarted =>
            cases n with
            | zero =>
                simp only [List.getElem?_cons_zero, Option.some.injEq] at h
                subst h
                refine ⟨{ hd with playStarted := true },
                  ?_, rfl, fun k hk => hk, ?_⟩
                · simp [AudioSvc.onEvent, hs, hl]
                · intro hdead
                  exact absurd hdead (by simp [hl])
            | succ m =>
                simp only [List.getElem?_cons_succ] at h
                refine ⟨sess, ?_, rfl, fun k hk => hk, fun _ => rfl⟩
                simp only [AudioSvc.onEvent, hs, hl, if_true, ite_true]
                simpa using h
        | ended =>
            cases n with
            | zero =>
                simp only [List.getElem?_cons_zero, Option.some.injEq] at h
                subst h
                refine ⟨{ hd with settled :=
                    AudioSvc.settleWith AudioSvc.SettleKind.resolvedEnd hd.settled },
                  ?_, rfl, ?_, ?_⟩
                · simp [AudioSvc.onEvent, hs, hl]
                · intro k hk
                  simp [hk, AudioSvc.settleWith]
                · intro hdead
                  exact absurd hdead (by simp [hl])
            | succ m =>
                simp only [List.getElem?_cons_succ] at h
                refine ⟨sess, ?_, rfl, fun k hk => hk, fun _ => rfl⟩
                simp only [AudioSvc.onEvent, hs, hl, if_true, ite_true]
                simpa using h
        | errored =>
            cases n with
            | zero =>
                simp only [List.getElem?_cons_zero, Option.some.injEq] at h
                subst h
                refine ⟨{ hd with settled :=
                    AudioSvc.settleWith AudioSvc.SettleKind.rejectedErr hd.settled },
                  ?_, rfl, ?_, ?_⟩
                · simp [AudioSvc.onEvent, hs, hl]
                · intro k hk
                  simp [hk, AudioSvc.settleWith]
                · intro hdead
                  exact absurd hdead (by simp [hl])
            | succ m =>
                simp only [List.getElem?_cons_succ] at h
                refine ⟨sess, ?_, rfl, fun k hk => hk, fun _ => rfl⟩
                simp only [AudioSvc.onEvent, hs, hl, if_true, ite_true]
                simpa using h
      · refine ⟨sess, ?_, rfl, fun k hk => hk, fun _ => rfl⟩
        have hl' : hd.live = false := by simpa using hl
        simp only [AudioSvc.onEvent, hs, hl', ite_false, if_false,
          Bool.false_eq_true]
        exact h

/-- Evolution along any event trace: liveness is preserved, settlements are
permanent, and a superseded (dead) session never changes at all. -/
theorem runEvents_session_evolution (tr : List AudioSvc.AudioEvent) :
    ∀ (s : AudioSvc.SvcState) (n : Nat) (sess : AudioSvc.Session),
    s.sessions[n]? = some sess →
    ∃ sess', (AudioSvc.runEvents s tr).sessions[n]? = some sess' ∧
      sess'.live = sess.live ∧
      (∀ k, sess.settled = some k → sess'.settled = some k) ∧
      (sess.live = false → sess' = sess) := by
  induction tr with
  | nil =>
      intro s n sess h
      exact ⟨sess, h, rfl, fun k hk => hk, fun _ => rfl⟩
  | cons e es ih =>
      intro s n sess h
      obtain ⟨s1, h1, hlive1, hset1, hdead1⟩ :=
        onEvent_session_evolution s e n sess h
      obtain ⟨s2, h2, hlive2, hset2, hdead2⟩ :=
        ih (AudioSvc.onEvent s e) n s1 h1
      refine ⟨s2, h2, hlive2.trans hlive1, ?_, ?_⟩
      · intro k hk
        exact hset2 k (hset1 k hk)
      · intro hdead
        have hd1 : s1 = sess := hdead1 hdead
        have : s1.live = false := by rw [hd1]; exact hdead
        rw [hdead2 this, hd1]

/-- Claim C2 as amended: `playAudio` aborts any existing playback first
(the implicit stop leaves no earlier session live) and creates a fresh
pending promise; the promise settles at most once — a settlement is
permanent along every event trace and across a stop; a live pending
playback resolves on natural end of stream and rejects on a decode/open
failure, in both cases with the clock reporting inactive; a playback
superseded by a stop or play while its `play()` promise was still pending
(playback never started) is settled as a rejection — the AbortError
cancellation forwarded by `play().catch` — never as finished; but a
playback superseded after playback started is abandoned: its dead session
never changes again under any events, so its promise stays pending
forever. -/
theorem playAudio_promise_settlement (s : AudioSvc.SvcState)
    (tr : List AudioSvc.AudioEvent) (n : Nat) (sess : AudioSvc.Session) :
    (AudioSvc.WF s → ∀ t ∈ (AudioSvc.playAudio s).sessions.drop 1, t.live = false) ∧
    ((AudioSvc.playAudio s).sessions[0]? = some ⟨none, true, false⟩) ∧
    (s.sessions[n]? = some sess → ∀ k, sess.settled = some k →
      ∃ sess', (AudioSvc.runEvents s tr).sessions[n]? = some sess' ∧
        sess'.settled = some k) ∧
    (s.sessions[n]? = some sess → ∀ k, sess.settled = some k →
      ∃ sess', (AudioSvc.stop s).sessions[n]? = some sess' ∧
        sess'.settled = some k) ∧
    (s.sessions[0]? = some sess → sess.live = true → sess.settled = none →
      (((AudioSvc.onEvent s AudioSvc.AudioEvent.ended).sessions[0]?
          = some { sess with settled := some AudioSvc.SettleKind.resolvedEnd } ∧
        (AudioSvc.onEvent s AudioSvc.AudioEvent.ended).statePlaying = false) ∧
       ((AudioSvc.onEvent s AudioSvc.AudioEvent.errored).sessions[0]?
          = some { sess with settled := some AudioSvc.SettleKind.rejectedErr } ∧
        (AudioSvc.onEvent s AudioSvc.AudioEvent.errored).statePlaying = false))) ∧
    (s.audioAttached = true → s.sessions[n]? = some sess → sess.live = true →
      sess.playStarted = false → sess.settled = none →
      (AudioSvc.stop s).sessions[n]?
        = some ⟨some AudioSvc.SettleKind.rejectedAbort, false, false⟩) ∧
    (s.sessions[n]? = some sess → sess.live = false →
      (AudioSvc.runEvents s tr).sessions[n]? = some sess) := by
  refine ⟨?_, ?_, ?_, ?_, ?_, ?_, ?_⟩
  · intro hwf t ht
    simp only [AudioSvc.playAudio, List.drop_succ_cons, List.drop_zero] at ht
    by_cases hat : s.audioAttached
    · simp only [AudioSvc.stop, hat, if_true, ite_true, List.mem_map] at ht
      obtain ⟨u, _, rfl⟩ := ht
      simp only [AudioSvc.abortSession]
      by_cases hu : u.live && !u.playStarted
      · simp [hu]
      · have hu' : (u.live && !u.playStarted) = false := by simpa using hu
        simp [hu']
    · have hat' : s.audioAttached = false := by simpa using hat
      simp only [AudioSvc.stop, hat', Bool.false_eq_true, if_false, ite_false] at ht
      exact hwf hat' t ht
  · simp [AudioSvc.playAudio]
  · intro h k hk
    obtain ⟨sess', h', _, hset, _⟩ := runEvents_session_evolution tr s n sess h
    exact ⟨sess', h', hset k hk⟩
  · intro h k hk
    by_cases hat : s.audioAttached
    · refine ⟨AudioSvc.abortSession sess, ?_, ?_⟩
      · simp [AudioSvc.stop, hat, List.getElem?_map, h]
      · simp only [AudioSvc.abortSession]
        by_cases hc : sess.live && !sess.playStarted
        · simp [hc, hk, AudioSvc.settleWith]
        · have hc' : (sess.live && !sess.playStarted) = false := by simpa using hc
          simp [hc', hk]
    · have hat' : s.audioAttached = false := by simpa using hat
      refine ⟨sess, ?_, hk⟩
      simp [AudioSvc.stop, hat', h]
  · intro h hlive hpend
    cases hs : s.sessions with
    | nil =>
        rw [hs] at h
        simp at h
    | cons hd rest =>
        rw [hs] at h
        simp only [List.getElem?_cons_zero, Option.some.injEq] at h
        subst h
        constructor
        · constructor
          · simp [AudioSvc.onEvent, hs, hlive, hpend, AudioSvc.settleWith]
          · simp [AudioSvc.onEvent, hs, hlive]
        · constructor
          · simp [AudioSvc.onEvent, hs, hlive, hpend, AudioSvc.settleWith]
          · simp [AudioSvc.onEvent, hs, hlive]
  · intro hat h hlive hstart hpend
    have habort : AudioSvc.abortSession sess
        = ⟨some AudioSvc.SettleKind.rejectedAbort, false, false⟩ := by
      simp [AudioSvc.abortSession, hlive, hstart, hpend, AudioSvc.settleWith]
    simp [AudioSvc.stop, hat, List.getElem?_map, h, habort]
  · intro h hdead
    obtain ⟨sess', h', _, _, hfix⟩ := runEvents_session_evolution tr s n sess h
    rw [hfix hdead] at h'
    exact h'

/-- Witness for the amended C2: stopping a playback whose `play()` promise
is still pending settles it as an AbortError rejection, and a fresh
playback that ends naturally has its promise resolved with the clock
inactive. -/
theorem playAudio_promise_settlement_witness :
    ((AudioSvc.stop (AudioSvc.playAudio ⟨[], false, false⟩)).sessions[0]?
      = some ⟨some AudioSvc.SettleKind.rejectedAbort, false, false⟩) ∧
    ((AudioSvc.onEvent (AudioSvc.playAudio ⟨[], false, false⟩)
        AudioSvc.AudioEvent.ended).sessions[0]?
      = some ⟨some AudioSvc.SettleKind.resolvedEnd, true, false⟩) := by
  constructor
  · exact (playAudio_promise_settlement (AudioSvc.playAudio ⟨[], false, false⟩)
      [] 0 ⟨none, true, false⟩).2.2.2.2.2.1 rfl (by decide) rfl rfl rfl
  · exact (((playAudio_promise_settlement (AudioSvc.playAudio ⟨[], false, false⟩)
      [] 0 ⟨none, true, false⟩).2.2.2.2.1 (by decide) rfl rfl).1).1

/-- Counterexample to claim C2 as stated: a playback whose playback has
started (metadata loaded, `play()` resolved) and which is then superseded
by a second `playAudio` call never has its promise settled — pausing no
longer rejects the already-resolved `play()` promise and the dropped
element fires no `ended` event, so the session stays pending
(`settled = none`) even after the second playback runs to its natural
end, while the claim requires every supersession to complete the
promise. -/
theorem playAudio_supersession_counterexample :
    ((AudioSvc.playAudio
        (AudioSvc.runEvents (AudioSvc.playAudio ⟨[], false, false⟩)
          [AudioSvc.AudioEvent.metaLoaded,
           AudioSvc.AudioEvent.playStarted])).sessions[1]?
      = some ⟨none, false, true⟩) ∧
    ((AudioSvc.runEvents
        (AudioSvc.playAudio
          (AudioSvc.runEvents (AudioSvc.playAudio ⟨[], false, false⟩)
            [AudioSvc.AudioEvent.metaLoaded,
             AudioSvc.AudioEvent.playStarted]))
        [AudioSvc.AudioEvent.playStarted,
         AudioSvc.AudioEvent.ended]).sessions[1]?
      = some ⟨none, false, true⟩) ∧
    ((AudioSvc.runEvents
        (AudioSvc.playAudio
          (AudioSvc.runEvents (AudioSvc.playAudio ⟨[], false, false⟩)
            [AudioSvc.AudioEvent.metaLoaded,
             AudioSvc.AudioEvent.playStarted]))
        [AudioSvc.AudioEvent.playStarted,
         AudioSvc.AudioEvent.ended]).sessions[0]?
      = some ⟨some AudioSvc.SettleKind.resolvedEnd, true, true⟩) := by
  decide
